import Mathlib

/-!
Shallow embedding of the task-repository facade of go-todo-api
(`internal/handlers` task handlers plus `internal/models/task.go`).

The five handlers (`GetAllTasks`, `GetTaskByID`, `CreateTask`, `UpdateTask`,
`DeleteTask`) are modelled as pure functions over an abstract store interface
`Store σ`: every MongoDB driver call the Go code makes becomes one call into
the interface, threaded through an explicit state `σ`, and each handler also
returns the trace of timeout scopes it opened and store calls it issued, so
that ordering properties ("validated before any store access", "the patch
apply is never issued", "all calls share one timeout scope") are statable.

Two instances of the interface are provided: `liveStore`, an honest in-memory
MongoDB collection semantics over a list of documents, and `scriptStore`, a
store answering from per-operation queues of scripted results, used to inject
failures (connection errors, decode errors, races).
-/

namespace TodoApi

/-- Hexadecimal digit as accepted by Go's `hex.Decode`
(used by `primitive.ObjectIDFromHex`). -/
def isHexChar (c : Char) : Bool :=
  c.isDigit || ('a' ≤ c && c ≤ 'f') || ('A' ≤ c && c ≤ 'F')

/-- Native store identifier (`primitive.ObjectID`), kept as its canonical
lower-case 24-character hex rendering (`ObjectID.Hex()`). -/
structure ObjectId where
  hex : String
deriving DecidableEq, Repr

/-- The zero `primitive.ObjectID` (12 zero bytes), the value a declared but
never-assigned `ObjectID` variable holds in Go. -/
def ObjectId.zero : ObjectId := ⟨"000000000000000000000000"⟩

/-- Model of `primitive.ObjectIDFromHex`: succeeds exactly on 24-character
hex strings, producing the canonical (lower-case) identifier. -/
def objectIDFromHex (s : String) : Option ObjectId :=
  if s.data.length = 24 && s.data.all isHexChar then
    some ⟨String.mk (s.data.map Char.toLower)⟩
  else none

/-- The `models.Task` document: id, title, description, completed. -/
structure Task where
  id : ObjectId
  title : String
  description : String
  completed : Bool
deriving DecidableEq, Repr

/-- Zero value of `models.Task` in Go: zero id, empty strings, false. -/
def Task.zero : Task := ⟨ObjectId.zero, "", "", false⟩

/-- A BSON value as placed in the `$set` document by `UpdateTask`:
the handler only ever stores strings (title, description) and booleans
(completed). -/
inductive BsonValue where
  | str (s : String)
  | bool (b : Bool)
deriving DecidableEq, Repr

/-- The `$set` document of an update: association list of field name and
value, in the order the Go code inserts them. -/
abbrev UpdateSet := List (String × BsonValue)

/-- Body of `models.UpdateTaskInput`: three nullable-pointer optional
fields; `none` models a nil pointer (field absent from the request). -/
structure UpdateBody where
  title : Option String
  description : Option String
  completed : Option Bool
deriving DecidableEq, Repr

/-- The `models.UpdateTaskInput`: path id string plus the optional body. -/
structure UpdateTaskInput where
  ID : String
  body : UpdateBody
deriving DecidableEq, Repr

/-- Update-document construction from `UpdateTask` (the three
`if input.Body.X != nil` blocks, in source order): a field enters the
`$set` document exactly when its pointer is non-nil, with the pointed-to
value verbatim. -/
def buildUpdateSet (body : UpdateBody) : UpdateSet :=
  (match body.title with
   | some t => [("title", BsonValue.str t)]
   | none => []) ++
  (match body.description with
   | some d => [("description", BsonValue.str d)]
   | none => []) ++
  (match body.completed with
   | some c => [("completed", BsonValue.bool c)]
   | none => [])

/-- MongoDB `$set` semantics for one field of a Task document. A key/value
pair of a shape `buildUpdateSet` never produces leaves the document
unchanged. -/
def setField (t : Task) : String × BsonValue → Task
  | ("title", BsonValue.str s) => { t with title := s }
  | ("description", BsonValue.str s) => { t with description := s }
  | ("completed", BsonValue.bool b) => { t with completed := b }
  | _ => t

/-- MongoDB `$set` semantics: apply each field assignment of the update
document to the stored Task. -/
def applySet (t : Task) (u : UpdateSet) : Task :=
  u.foldl setField t

/-- The `models.GetTaskInput` (path id string). -/
structure GetTaskInput where
  ID : String
deriving DecidableEq, Repr

/-- Body of `models.CreateTaskInput`: caller supplies only title and
description; there is no id or completed field in the input type. -/
structure CreateTaskBody where
  title : String
  description : String
deriving DecidableEq, Repr

/-- The `models.CreateTaskInput`. -/
structure CreateTaskInput where
  body : CreateTaskBody
deriving DecidableEq, Repr

/-- The `models.DeleteTaskInput` (path id string). -/
structure DeleteTaskInput where
  ID : String
deriving DecidableEq, Repr

/-- Body of `models.DeleteTaskOutput`: success message plus echoed id. -/
structure DeleteBody where
  message : String
  ID : String
deriving DecidableEq, Repr

/-- Outcome of `collection.FindOne(..).Decode(..)`: a decoded document,
`mongo.ErrNoDocuments`, or any other error (connectivity, timeout, decode
failure — the Go code treats all of those alike). -/
inductive FindOneResult where
  | found (doc : Task)
  | noDocuments
  | storeError
deriving DecidableEq, Repr

/-- Outcome of `collection.UpdateOne`: a result carrying `MatchedCount`,
or an error. -/
inductive UpdateOneResult where
  | ok (matchedCount : Nat)
  | storeError
deriving DecidableEq, Repr

/-- Outcome of `collection.DeleteOne`: a result carrying `DeletedCount`,
or an error. -/
inductive DeleteOneResult where
  | ok (deletedCount : Nat)
  | storeError
deriving DecidableEq, Repr

/-- Outcome of `collection.InsertOne`: a result carrying `InsertedID`,
or an error. -/
inductive InsertOneResult where
  | ok (insertedID : ObjectId)
  | storeError
deriving DecidableEq, Repr

/-- Outcome of `collection.Find` followed by `cursor.All(&tasks)`:
`ok none` models a nil slice left by decoding zero documents, `ok (some l)`
a populated slice, and the two error constructors the failure of `Find`
itself and of `cursor.All` respectively (mapped to different messages by
the handler). -/
inductive FindAllResult where
  | ok (docs : Option (List Task))
  | findError
  | decodeError
deriving DecidableEq, Repr

/-- A find filter on the task collection as built by the filtered list
handler (`health.go` `GetAllTasks`): the unrestricted `bson.M{}`, or the
filter with `completed` set to a boolean. -/
inductive TaskFilter where
  | all
  | byCompleted (b : Bool)
deriving DecidableEq, Repr

/-- Whether a document matches a find filter. -/
def matchesFilter : TaskFilter → Task → Bool
  | TaskFilter.all, _ => true
  | TaskFilter.byCompleted b, t => t.completed = b

/-- A store call as recorded in the handler trace. -/
inductive StoreCall where
  | findAllC
  | findC (filter : TaskFilter)
  | findOneC (id : ObjectId)
  | updateOneC (id : ObjectId) (upd : UpdateSet)
  | deleteOneC (id : ObjectId)
  | insertOneC (doc : Task)
deriving DecidableEq, Repr

/-- Trace event: either the creation of a bounded-timeout cancellation
scope (`context.WithTimeout`, with its scope token and duration in
seconds), or a store call tagged with the scope it runs under. -/
inductive Event where
  | newTimeout (scope : Nat) (seconds : Nat)
  | call (scope : Nat) (c : StoreCall)
deriving DecidableEq, Repr

/-- Abstract store interface consumed by the handlers: each MongoDB driver
operation, threaded through an explicit store state `σ`. -/
structure Store (σ : Type) where
  findAll : σ → FindAllResult × σ
  findOne : σ → ObjectId → FindOneResult × σ
  updateOne : σ → ObjectId → UpdateSet → UpdateOneResult × σ
  deleteOne : σ → ObjectId → DeleteOneResult × σ
  insertOne : σ → Task → InsertOneResult × σ

/-- The three error kinds the handlers return, as produced by the huma
error constructors: 400 (`Error400BadRequest` / InvalidArgument),
404 (`Error404NotFound` / NotFound), 500 (`Error500InternalServerError` /
StoreUnavailable). -/
inductive ApiError where
  | badRequest (msg : String)
  | notFound (msg : String)
  | internalServerError (msg : String)
deriving DecidableEq, Repr

/-- Decidable equality for handler results. -/
instance {ε α : Type} [DecidableEq ε] [DecidableEq α] :
    DecidableEq (Except ε α) := fun a b =>
  match a, b with
  | Except.ok x, Except.ok y =>
      if h : x = y then isTrue (by rw [h]) else isFalse (by simp [h])
  | Except.error x, Except.error y =>
      if h : x = y then isTrue (by rw [h]) else isFalse (by simp [h])
  | Except.ok _, Except.error _ => isFalse (by simp)
  | Except.error _, Except.ok _ => isFalse (by simp)

/-- Result of running a handler: the value-or-error it returns, the store
state afterwards, and the trace of scopes and store calls it produced. -/
structure HandlerRun (σ α : Type) where
  result : Except ApiError α
  state : σ
  trace : List Event

/-- Handler `GetAllTasks`: opens one 5-second timeout scope, runs the
unrestricted `Find(bson.M{})` plus `cursor.All`, replaces a nil slice with
an empty one, and maps the two failure modes to 500 errors. Its input is
`*struct{}` in Go: there is no filter (or any other) input field. -/
def GetAllTasks {σ : Type} (st : Store σ) (s0 : σ) (_input : Unit) :
    HandlerRun σ (List Task) :=
  let ev0 : List Event := [Event.newTimeout 0 5]
  let s1 := (st.findAll s0).2
  let ev1 := ev0 ++ [Event.call 0 StoreCall.findAllC]
  match (st.findAll s0).1 with
  | FindAllResult.findError =>
      ⟨Except.error (ApiError.internalServerError
        "Failed to fetch tasks from database"), s1, ev1⟩
  | FindAllResult.decodeError =>
      ⟨Except.error (ApiError.internalServerError "Failed to decode tasks"),
        s1, ev1⟩
  | FindAllResult.ok odocs =>
      let tasks := match odocs with
        | none => ([] : List Task)
        | some ts => ts
      ⟨Except.ok tasks, s1, ev1⟩

/-- Handler `GetTaskByID`: decodes the path id (failure → 400 before any
store access), then one 5-second scope, one `FindOne` by `_id`;
`ErrNoDocuments` → 404, any other error → 500, else the decoded task. -/
def GetTaskByID {σ : Type} (st : Store σ) (s0 : σ) (input : GetTaskInput) :
    HandlerRun σ Task :=
  match objectIDFromHex input.ID with
  | none => ⟨Except.error (ApiError.badRequest "Invalid task ID format"), s0, []⟩
  | some objectID =>
      let ev0 : List Event := [Event.newTimeout 0 5]
      let s1 := (st.findOne s0 objectID).2
      let ev1 := ev0 ++ [Event.call 0 (StoreCall.findOneC objectID)]
      match (st.findOne s0 objectID).1 with
      | FindOneResult.noDocuments =>
          ⟨Except.error (ApiError.notFound "Task not found"), s1, ev1⟩
      | FindOneResult.storeError =>
          ⟨Except.error (ApiError.internalServerError "Failed to fetch task"),
            s1, ev1⟩
      | FindOneResult.found task => ⟨Except.ok task, s1, ev1⟩

/-- Handler `CreateTask`: builds the new document with caller title and
description, `Completed: false` and the zero id (omitted on insert), then
one 5-second scope and one `InsertOne`; on success the returned task is
the document with `ID` overwritten by the store-assigned `InsertedID`. -/
def CreateTask {σ : Type} (st : Store σ) (s0 : σ) (input : CreateTaskInput) :
    HandlerRun σ Task :=
  let newTask : Task :=
    { id := ObjectId.zero
      title := input.body.title
      description := input.body.description
      completed := false }
  let ev0 : List Event := [Event.newTimeout 0 5]
  let s1 := (st.insertOne s0 newTask).2
  let ev1 := ev0 ++ [Event.call 0 (StoreCall.insertOneC newTask)]
  match (st.insertOne s0 newTask).1 with
  | InsertOneResult.storeError =>
      ⟨Except.error (ApiError.internalServerError
        "Failed to create task in database"), s1, ev1⟩
  | InsertOneResult.ok insertedID =>
      ⟨Except.ok { newTask with id := insertedID }, s1, ev1⟩

/-- Handler `UpdateTask`: decode id (→ 400), one shared 5-second scope
`dbCtx` for the whole body, existence `FindOne` (miss → 404, other error
→ 500), build the `$set` document from the present optional fields,
reject an empty one with 400 before `UpdateOne`, apply the update
(error → 500, `MatchedCount` 0 → 404), then re-fetch under the same
scope — the Go code discards the error of that final
`FindOne(..).Decode(&updatedTask)`, so on a failed re-fetch the zero
value of `updatedTask` is returned as a success. -/
def UpdateTask {σ : Type} (st : Store σ) (s0 : σ) (input : UpdateTaskInput) :
    HandlerRun σ Task :=
  match objectIDFromHex input.ID with
  | none => ⟨Except.error (ApiError.badRequest "Invalid task ID format"), s0, []⟩
  | some objectID =>
      let ev0 : List Event := [Event.newTimeout 0 5]
      let s1 := (st.findOne s0 objectID).2
      let ev1 := ev0 ++ [Event.call 0 (StoreCall.findOneC objectID)]
      match (st.findOne s0 objectID).1 with
      | FindOneResult.noDocuments =>
          ⟨Except.error (ApiError.notFound "Task not found"), s1, ev1⟩
      | FindOneResult.storeError =>
          ⟨Except.error (ApiError.internalServerError "Failed to fetch task"),
            s1, ev1⟩
      | FindOneResult.found _existingTask =>
          let updateSet := buildUpdateSet input.body
          if updateSet.isEmpty then
            ⟨Except.error (ApiError.badRequest "No fields to update"), s1, ev1⟩
          else
            let s2 := (st.updateOne s1 objectID updateSet).2
            let ev2 := ev1 ++ [Event.call 0 (StoreCall.updateOneC objectID updateSet)]
            match (st.updateOne s1 objectID updateSet).1 with
            | UpdateOneResult.storeError =>
                ⟨Except.error (ApiError.internalServerError
                  "Failed to update task"), s2, ev2⟩
            | UpdateOneResult.ok matchedCount =>
                if matchedCount = 0 then
                  ⟨Except.error (ApiError.notFound "Task not found"), s2, ev2⟩
                else
                  let s3 := (st.findOne s2 objectID).2
                  let ev3 := ev2 ++ [Event.call 0 (StoreCall.findOneC objectID)]
                  let updatedTask := match (st.findOne s2 objectID).1 with
                    | FindOneResult.found t => t
                    | _ => Task.zero
                  ⟨Except.ok updatedTask, s3, ev3⟩

/-- Handler `DeleteTask`: decode id (→ 400), one 5-second scope, one
`DeleteOne` (error → 500, `DeletedCount` 0 → 404); on success the body
echoes the caller-supplied `input.ID` string, not the re-encoded
identifier. -/
def DeleteTask {σ : Type} (st : Store σ) (s0 : σ) (input : DeleteTaskInput) :
    HandlerRun σ DeleteBody :=
  match objectIDFromHex input.ID with
  | none => ⟨Except.error (ApiError.badRequest "Invalid task ID format"), s0, []⟩
  | some objectID =>
      let ev0 : List Event := [Event.newTimeout 0 5]
      let s1 := (st.deleteOne s0 objectID).2
      let ev1 := ev0 ++ [Event.call 0 (StoreCall.deleteOneC objectID)]
      match (st.deleteOne s0 objectID).1 with
      | DeleteOneResult.storeError =>
          ⟨Except.error (ApiError.internalServerError "Failed to delete task"),
            s1, ev1⟩
      | DeleteOneResult.ok deletedCount =>
          if deletedCount = 0 then
            ⟨Except.error (ApiError.notFound "Task not found"), s1, ev1⟩
          else
            ⟨Except.ok ⟨"Task deleted successfully", input.ID⟩, s1, ev1⟩

/-- The `models.GetTasksInput` query input of the filtered list handler:
the optional `completed` query parameter, carried as a string (absent →
the empty string). The struct's own declaration file is not among the
provided sources; its shape is fixed by its uses: `health.go` switches
`input.Completed` on the strings "true" and "false", and the tests
construct `models.GetTasksInput{Completed: "true"}` and
`models.GetTasksInput{}`. -/
structure GetTasksInput where
  completed : String
deriving DecidableEq, Repr

/-- Filter construction of `health.go` `GetAllTasks` (the
`switch input.Completed` block): "true" and "false" restrict the query to
the corresponding `completed` value; any other string — in particular the
empty string of an absent parameter — leaves the query unrestricted. -/
def buildTaskFilter (completed : String) : TaskFilter :=
  match completed with
  | "true" => TaskFilter.byCompleted true
  | "false" => TaskFilter.byCompleted false
  | _ => TaskFilter.all

/-- Store interface of the filtered list handler: `Find` with a filter
document followed by `cursor.All`, threaded through a store state. -/
structure FilteredStore (σ : Type) where
  find : σ → TaskFilter → FindAllResult × σ

/-- The nil-versus-populated slice `cursor.All` leaves after decoding a
list of matching documents: decoding zero documents leaves the slice nil. -/
def toDecoded : List Task → Option (List Task)
  | [] => none
  | ts => some ts

/-- Live instance of the filtered store: an honest collection that
returns exactly the documents matching the filter. -/
def liveFilteredStore : FilteredStore (List Task) where
  find := fun docs f => (FindAllResult.ok (toDecoded (docs.filter (matchesFilter f))), docs)

/-- The filtered list handler — `GetAllTasks` of
`src/internal/handlers/health.go` (named apart here because the
repository's variant files both declare a `GetAllTasks`): builds the
filter from `input.Completed`, opens one 5-second timeout scope, runs
`Find` with that filter plus `cursor.All`, replaces a nil slice with an
empty one, and maps the two failure modes to 500 errors. The tracing
spans of the source are observability side effects with no bearing on
the result and are not modelled. -/
def GetAllTasksFiltered {σ : Type} (st : FilteredStore σ) (s0 : σ)
    (input : GetTasksInput) : HandlerRun σ (List Task) :=
  let filter := buildTaskFilter input.completed
  let ev0 : List Event := [Event.newTimeout 0 5]
  let s1 := (st.find s0 filter).2
  let ev1 := ev0 ++ [Event.call 0 (StoreCall.findC filter)]
  match (st.find s0 filter).1 with
  | FindAllResult.findError =>
      ⟨Except.error (ApiError.internalServerError
        "Failed to fetch tasks from the database"), s1, ev1⟩
  | FindAllResult.decodeError =>
      ⟨Except.error (ApiError.internalServerError "Failed to decode tasks"),
        s1, ev1⟩
  | FindAllResult.ok odocs =>
      let tasks := match odocs with
        | none => ([] : List Task)
        | some ts => ts
      ⟨Except.ok tasks, s1, ev1⟩

/-- One hexadecimal digit character. -/
def hexDigitChar (n : Nat) : Char :=
  if n < 10 then Char.ofNat (48 + n) else Char.ofNat (87 + (n % 16))

/-- A fresh `ObjectId` derived from a counter: the 24-character hex
rendering of the number. Models the store generating a new identifier on
insert. -/
def freshOid (n : Nat) : ObjectId :=
  ⟨String.mk (((List.range 24).map
      (fun i => hexDigitChar (n / 16 ^ (23 - i) % 16))))⟩

/-- In-memory MongoDB collection semantics of `FindOne` on an `_id`
equality filter: the first document with that id, else `ErrNoDocuments`. -/
def mongoFindOne (docs : List Task) (id : ObjectId) : FindOneResult :=
  match docs.find? (fun t => t.id = id) with
  | some t => FindOneResult.found t
  | none => FindOneResult.noDocuments

/-- In-memory MongoDB collection semantics of `UpdateOne` on an `_id`
equality filter with a `$set` document: patch the matching document,
reporting how many matched (0 or 1). -/
def mongoUpdateOne (docs : List Task) (id : ObjectId) (u : UpdateSet) :
    UpdateOneResult × List Task :=
  if docs.any (fun t => t.id = id) then
    (UpdateOneResult.ok 1,
      docs.map (fun t => if t.id = id then applySet t u else t))
  else
    (UpdateOneResult.ok 0, docs)

/-- In-memory MongoDB collection semantics of `DeleteOne` on an `_id`
equality filter: remove the matching document, reporting how many were
deleted (0 or 1). -/
def mongoDeleteOne (docs : List Task) (id : ObjectId) :
    DeleteOneResult × List Task :=
  if docs.any (fun t => t.id = id) then
    (DeleteOneResult.ok 1, docs.filter (fun t => !(t.id = id : Bool)))
  else
    (DeleteOneResult.ok 0, docs)

/-- Live in-memory store: an honest, never-failing collection of
documents (the happy path of the MongoDB collaborator). The state is the
document list paired with the insert counter used to mint fresh ids. -/
def liveStore : Store (List Task × Nat) where
  findAll := fun (docs, n) =>
    (FindAllResult.ok (match docs with | [] => none | ts => some ts), (docs, n))
  findOne := fun (docs, n) id => (mongoFindOne docs id, (docs, n))
  updateOne := fun (docs, n) id u =>
    let (r, docs2) := mongoUpdateOne docs id u
    (r, (docs2, n))
  deleteOne := fun (docs, n) id =>
    let (r, docs2) := mongoDeleteOne docs id
    (r, (docs2, n))
  insertOne := fun (docs, n) doc =>
    let oid := freshOid n
    (InsertOneResult.ok oid, (docs ++ [{ doc with id := oid }], n + 1))

/-- Scripted store state: one queue of pre-arranged results per
operation kind, consumed head-first; an exhausted queue answers with the
operation's error outcome. Used to drive handlers through failure paths. -/
structure Script where
  findAllQ : List FindAllResult
  findOneQ : List FindOneResult
  updateOneQ : List UpdateOneResult
  deleteOneQ : List DeleteOneResult
  insertOneQ : List InsertOneResult
deriving Repr

/-- The store that answers from a `Script`. -/
def scriptStore : Store Script where
  findAll := fun s =>
    match s.findAllQ with
    | [] => (FindAllResult.findError, s)
    | r :: rest => (r, { s with findAllQ := rest })
  findOne := fun s _ =>
    match s.findOneQ with
    | [] => (FindOneResult.storeError, s)
    | r :: rest => (r, { s with findOneQ := rest })
  updateOne := fun s _ _ =>
    match s.updateOneQ with
    | [] => (UpdateOneResult.storeError, s)
    | r :: rest => (r, { s with updateOneQ := rest })
  deleteOne := fun s _ =>
    match s.deleteOneQ with
    | [] => (DeleteOneResult.storeError, s)
    | r :: rest => (r, { s with deleteOneQ := rest })
  insertOne := fun s _ =>
    match s.insertOneQ with
    | [] => (InsertOneResult.storeError, s)
    | r :: rest => (r, { s with insertOneQ := rest })

/-- A script with all queues empty. -/
def Script.empty : Script := ⟨[], [], [], [], []⟩

/-- The scope tokens of the store-call events of a trace, in order. -/
def callScopes (evs : List Event) : List Nat :=
  evs.filterMap (fun e => match e with
    | Event.call sc _ => some sc
    | _ => none)

/-- The timeout-scope creation events of a trace, as (token, seconds). -/
def timeoutScopes (evs : List Event) : List (Nat × Nat) :=
  evs.filterMap (fun e => match e with
    | Event.newTimeout sc secs => some (sc, secs)
    | _ => none)

/-- Whether an event is a store call at all. -/
def isStoreCall : Event → Bool
  | Event.call _ _ => true
  | _ => false

/-- Whether an event is a mutating store call (update, delete or
insert) — fetches do not mutate the store. -/
def isMutationCall : Event → Bool
  | Event.call _ (StoreCall.updateOneC _ _) => true
  | Event.call _ (StoreCall.deleteOneC _) => true
  | Event.call _ (StoreCall.insertOneC _) => true
  | _ => false

/-! Concrete fixtures used by witnesses and counterexamples. -/

/-- A well-formed external identifier (24 hex characters). -/
def hexA : String := "aaaaaaaaaaaaaaaaaaaaaaaa"

/-- The native identifier `hexA` decodes to. -/
def oidA : ObjectId := ⟨"aaaaaaaaaaaaaaaaaaaaaaaa"⟩

/-- The task of the spec's partial-update scenario:
title "A", description "B", completed false. -/
def taskAB : Task := ⟨oidA, "A", "B", false⟩

/-- Update input setting only `completed := true` (title and description
pointers nil). -/
def updOnlyCompleted : UpdateTaskInput := ⟨hexA, ⟨none, none, some true⟩⟩

/-- Three further identifiers for the three-task list fixture. -/
def oid1 : ObjectId := ⟨"000000000000000000000001"⟩

/-- Second fixture identifier. -/
def oid2 : ObjectId := ⟨"000000000000000000000002"⟩

/-- Third fixture identifier. -/
def oid3 : ObjectId := ⟨"000000000000000000000003"⟩

/-- The spec's filter scenario: tasks with completed values
[false, true, false]. -/
def storeFTF : List Task :=
  [⟨oid1, "t1", "", false⟩, ⟨oid2, "t2", "", true⟩, ⟨oid3, "t3", "", false⟩]

/-- Script for a fully successful UpdateTask run: existence check finds
`taskAB`, the patch matches one document, the re-fetch finds the patched
document. -/
def scriptUpdateOk : Script :=
  { Script.empty with
      findOneQ := [FindOneResult.found taskAB,
        FindOneResult.found ⟨oidA, "A", "B", true⟩],
      updateOneQ := [UpdateOneResult.ok 1] }

/-- Script for an UpdateTask run whose re-fetch fails: existence check
finds `taskAB`, the patch matches one document, but the final `FindOne`
errors (connection lost / decode failure after the patch). -/
def scriptRefetchFail : Script :=
  { Script.empty with
      findOneQ := [FindOneResult.found taskAB, FindOneResult.storeError],
      updateOneQ := [UpdateOneResult.ok 1] }

/-!  Claim theorems. -/

/-- C1. The `$set` document built by `UpdateTask` contains exactly the
fields whose optional input is present, each with its provided value
verbatim; an absent field never appears, so MongoDB's `$set` leaves its
stored value unchanged; and in the spec's scenario, updating
title="A", description="B", completed=false with only `completed := true`
present yields title="A", description="B", completed=true. -/
theorem updateSet_exact_fields_and_preservation (body : UpdateBody) :
    (∀ kv, kv ∈ buildUpdateSet body ↔
      ((∃ v, kv = ("title", BsonValue.str v) ∧ body.title = some v) ∨
       (∃ v, kv = ("description", BsonValue.str v) ∧ body.description = some v) ∨
       (∃ v, kv = ("completed", BsonValue.bool v) ∧ body.completed = some v))) ∧
    (body.title = none →
      ∀ t : Task, (applySet t (buildUpdateSet body)).title = t.title) ∧
    (body.description = none →
      ∀ t : Task, (applySet t (buildUpdateSet body)).description = t.description) ∧
    (body.completed = none →
      ∀ t : Task, (applySet t (buildUpdateSet body)).completed = t.completed) ∧
    (UpdateTask liveStore ([taskAB], 0) updOnlyCompleted).result
      = Except.ok ⟨oidA, "A", "B", true⟩ := by
  obtain ⟨ot, od, oc⟩ := body
  refine ⟨?_, ?_, ?_, ?_, by decide⟩ <;>
    cases ot <;> cases od <;> cases oc <;>
      simp [buildUpdateSet, applySet, setField]

/-- C1 witness: instantiation at the spec's concrete scenario. -/
theorem updateSet_exact_fields_and_preservation_witness :
    (("completed", BsonValue.bool true) ∈ buildUpdateSet ⟨none, none, some true⟩) ∧
    (applySet taskAB (buildUpdateSet ⟨none, none, some true⟩)).title = taskAB.title ∧
    (UpdateTask liveStore ([taskAB], 0) updOnlyCompleted).result
      = Except.ok ⟨oidA, "A", "B", true⟩ :=
  ⟨((updateSet_exact_fields_and_preservation ⟨none, none, some true⟩).1
      ("completed", BsonValue.bool true)).mpr (Or.inr (Or.inr ⟨true, rfl, rfl⟩)),
   (updateSet_exact_fields_and_preservation ⟨none, none, some true⟩).2.1 rfl taskAB,
   (updateSet_exact_fields_and_preservation ⟨none, none, some true⟩).2.2.2.2⟩

/-- Evaluation of the filtered list handler on the live filtered store:
every run executes the query built from the `completed` parameter and
returns exactly the documents matching it (a nil slice of zero matches
coming back as the empty list). -/
theorem getAllTasksFiltered_live_run (docs : List Task) (s : String) :
    (GetAllTasksFiltered liveFilteredStore docs ⟨s⟩).result
      = Except.ok (docs.filter (matchesFilter (buildTaskFilter s))) ∧
    (GetAllTasksFiltered liveFilteredStore docs ⟨s⟩).trace
      = [Event.newTimeout 0 5, Event.call 0 (StoreCall.findC (buildTaskFilter s))] := by
  unfold GetAllTasksFiltered liveFilteredStore
  cases h : docs.filter (matchesFilter (buildTaskFilter s)) <;>
    simp [toDecoded, h]

/-- C2. The repository's filtered list handler takes the tri-state
`completed` query parameter: with the filter set ("true" or "false") the
query it executes is restricted to documents with that `completed` value
and exactly the matching subset is returned; with the filter unset (the
empty string) the query is unrestricted and all tasks are returned. On
the spec's [false, true, false] store, filter "true" yields exactly the
one completed task and no filter yields all three. -/
theorem getAllTasksFiltered_tristate (docs : List Task) (s : String) :
    (s = "true" →
      buildTaskFilter s = TaskFilter.byCompleted true ∧
      (GetAllTasksFiltered liveFilteredStore docs ⟨s⟩).result
        = Except.ok (docs.filter (fun t => t.completed = true)) ∧
      (GetAllTasksFiltered liveFilteredStore docs ⟨s⟩).trace
        = [Event.newTimeout 0 5,
           Event.call 0 (StoreCall.findC (TaskFilter.byCompleted true))]) ∧
    (s = "false" →
      buildTaskFilter s = TaskFilter.byCompleted false ∧
      (GetAllTasksFiltered liveFilteredStore docs ⟨s⟩).result
        = Except.ok (docs.filter (fun t => t.completed = false)) ∧
      (GetAllTasksFiltered liveFilteredStore docs ⟨s⟩).trace
        = [Event.newTimeout 0 5,
           Event.call 0 (StoreCall.findC (TaskFilter.byCompleted false))]) ∧
    (s = "" →
      buildTaskFilter s = TaskFilter.all ∧
      (GetAllTasksFiltered liveFilteredStore docs ⟨s⟩).result = Except.ok docs ∧
      (GetAllTasksFiltered liveFilteredStore docs ⟨s⟩).trace
        = [Event.newTimeout 0 5, Event.call 0 (StoreCall.findC TaskFilter.all)]) ∧
    (GetAllTasksFiltered liveFilteredStore storeFTF ⟨"true"⟩).result
      = Except.ok [⟨oid2, "t2", "", true⟩] ∧
    (GetAllTasksFiltered liveFilteredStore storeFTF ⟨""⟩).result
      = Except.ok storeFTF := by
  refine ⟨?_, ?_, ?_, by decide, by decide⟩ <;>
    (rintro rfl
     refine ⟨rfl, ?_, (getAllTasksFiltered_live_run docs _).2⟩)
  · exact (getAllTasksFiltered_live_run docs "true").1
  · exact (getAllTasksFiltered_live_run docs "false").1
  · have h := (getAllTasksFiltered_live_run docs "").1
    rw [show buildTaskFilter "" = TaskFilter.all from rfl,
      show matchesFilter TaskFilter.all = fun _ => true from funext fun _ => rfl,
      List.filter_true] at h
    exact h

/-- C2 witness: the filter theorem instantiated at the spec's
[false, true, false] scenario, with the filter-set and filter-unset
hypotheses discharged concretely. -/
theorem getAllTasksFiltered_tristate_witness :
    (GetAllTasksFiltered liveFilteredStore storeFTF ⟨"true"⟩).result
      = Except.ok (storeFTF.filter (fun t => t.completed = true)) ∧
    (GetAllTasksFiltered liveFilteredStore storeFTF ⟨""⟩).result
      = Except.ok storeFTF :=
  ⟨((getAllTasksFiltered_tristate storeFTF "true").1 rfl).2.1,
   ((getAllTasksFiltered_tristate storeFTF "").2.2.1 rfl).2.1⟩

/-- C3 counterexample: a fully successful UpdateTask run issues its three
store calls (existence fetch, patch apply, re-fetch) all under the same
scope token 0, and opens exactly one 5-second timeout scope — the scopes
of the three calls are not pairwise distinct, contradicting
"each runs under its own fresh timeout scope". -/
theorem updateTask_shared_scope_counterexample :
    callScopes (UpdateTask scriptStore scriptUpdateOk updOnlyCompleted).trace
      = [0, 0, 0] ∧
    timeoutScopes (UpdateTask scriptStore scriptUpdateOk updOnlyCompleted).trace
      = [(0, 5)] ∧
    ¬ List.Pairwise (fun a b => a ≠ b)
        (callScopes (UpdateTask scriptStore scriptUpdateOk updOnlyCompleted).trace) := by
  refine ⟨by decide, by decide, by decide⟩

/-- C3 amended: in every UpdateTask execution, over any store, a single
shared timeout scope (token 0, 5 seconds) is opened — once, right after
identifier validation — and every store call the handler issues runs
under that one scope; the three calls do not get fresh scopes of their
own. -/
theorem updateTask_single_shared_scope {σ : Type} (st : Store σ) (s0 : σ)
    (input : UpdateTaskInput) :
    (timeoutScopes (UpdateTask st s0 input).trace = [] ∨
      timeoutScopes (UpdateTask st s0 input).trace = [(0, 5)]) ∧
    (∀ sc ∈ callScopes (UpdateTask st s0 input).trace, sc = 0) := by
  unfold UpdateTask
  repeat' split
  all_goals simp [timeoutScopes, callScopes]
  all_goals repeat' split
  all_goals simp [timeoutScopes, callScopes]

/-- C3 witness: the amended single-scope theorem applied at a concrete
run. -/
theorem updateTask_single_shared_scope_witness :
    timeoutScopes (UpdateTask scriptStore scriptUpdateOk updOnlyCompleted).trace
        = [] ∨
      timeoutScopes (UpdateTask scriptStore scriptUpdateOk updOnlyCompleted).trace
        = [(0, 5)] :=
  (updateTask_single_shared_scope scriptStore scriptUpdateOk updOnlyCompleted).1

/-- C4 counterexample: existence check finds the task and the patch
matches one document, but the re-fetch fails (`scriptRefetchFail`); the
handler still returns success — carrying the Go zero value of
`models.Task` — instead of surfacing a StoreUnavailable error. -/
theorem updateTask_refetch_error_swallowed_counterexample :
    (UpdateTask scriptStore scriptRefetchFail updOnlyCompleted).result
      = Except.ok Task.zero := by
  decide

/-- C4 amended: after a patch apply reporting a nonzero match count,
UpdateTask re-fetches the record by identifier; when the re-fetch decodes
a document, that re-read stored state is the result, but when the
re-fetch fails to execute or decode, the failure is silently discarded
and the zero-value Task is returned as a success. -/
theorem updateTask_refetch_result {σ : Type} (st : Store σ) (s0 : σ)
    (input : UpdateTaskInput) (oid : ObjectId) (t : Task) (m : Nat)
    (hdec : objectIDFromHex input.ID = some oid)
    (h1 : (st.findOne s0 oid).1 = FindOneResult.found t)
    (hne : buildUpdateSet input.body ≠ [])
    (h2 : (st.updateOne (st.findOne s0 oid).2 oid
      (buildUpdateSet input.body)).1 = UpdateOneResult.ok m)
    (hm : m ≠ 0) :
    (UpdateTask st s0 input).result =
      Except.ok
        (match (st.findOne
            (st.updateOne (st.findOne s0 oid).2 oid (buildUpdateSet input.body)).2
            oid).1 with
          | FindOneResult.found u => u
          | _ => Task.zero) := by
  unfold UpdateTask
  rw [hdec]
  simp only [h1, List.isEmpty_eq_true, hne, if_false, h2, hm, if_false]

/-- C4 witness: the amended re-fetch theorem at the failing script, with
every hypothesis discharged concretely. -/
theorem updateTask_refetch_result_witness :
    (UpdateTask scriptStore scriptRefetchFail updOnlyCompleted).result =
      Except.ok
        (match (scriptStore.findOne
            (scriptStore.updateOne
              (scriptStore.findOne scriptRefetchFail oidA).2 oidA
              (buildUpdateSet updOnlyCompleted.body)).2
            oidA).1 with
          | FindOneResult.found u => u
          | _ => Task.zero) :=
  updateTask_refetch_result scriptStore scriptRefetchFail updOnlyCompleted
    oidA taskAB 1 (by decide) (by decide) (by decide) (by decide) (by decide)

/-- C5. With a well-formed identifier of an existing task and all three
optional fields absent, UpdateTask returns the 400 InvalidArgument
"No fields to update"; its trace contains the single existence fetch and
no mutating call (the patch apply is never issued), and the store state
is exactly the post-fetch state. -/
theorem updateTask_empty_update_rejected {σ : Type} (st : Store σ) (s0 : σ)
    (input : UpdateTaskInput) (oid : ObjectId) (t : Task)
    (hdec : objectIDFromHex input.ID = some oid)
    (h1 : (st.findOne s0 oid).1 = FindOneResult.found t)
    (ht : input.body.title = none)
    (hd : input.body.description = none)
    (hc : input.body.completed = none) :
    (UpdateTask st s0 input).result
      = Except.error (ApiError.badRequest "No fields to update") ∧
    (UpdateTask st s0 input).trace
      = [Event.newTimeout 0 5, Event.call 0 (StoreCall.findOneC oid)] ∧
    (UpdateTask st s0 input).state = (st.findOne s0 oid).2 := by
  have hempty : buildUpdateSet input.body = [] := by
    simp [buildUpdateSet, ht, hd, hc]
  unfold UpdateTask
  rw [hdec]
  simp [h1, hempty]

/-- C5 witness: concrete run with an existing task and an all-absent
body. -/
theorem updateTask_empty_update_rejected_witness :
    (UpdateTask scriptStore
        { Script.empty with findOneQ := [FindOneResult.found taskAB] }
        ⟨hexA, ⟨none, none, none⟩⟩).result
      = Except.error (ApiError.badRequest "No fields to update") :=
  (updateTask_empty_update_rejected scriptStore
    { Script.empty with findOneQ := [FindOneResult.found taskAB] }
    ⟨hexA, ⟨none, none, none⟩⟩ oidA taskAB
    (by decide) (by decide) rfl rfl rfl).1

/-- C6. GetTaskByID classifies its outcome exhaustively: an identifier
that does not decode → 400 InvalidArgument with no store access (empty
trace, untouched state); a decoded identifier matching no record
(`ErrNoDocuments`) → 404 NotFound; any other lookup failure → 500
StoreUnavailable; a decoded document → that Task. -/
theorem getTaskByID_classification {σ : Type} (st : Store σ) (s0 : σ)
    (input : GetTaskInput) :
    (objectIDFromHex input.ID = none →
      (GetTaskByID st s0 input).result
        = Except.error (ApiError.badRequest "Invalid task ID format") ∧
      (GetTaskByID st s0 input).trace = [] ∧
      (GetTaskByID st s0 input).state = s0) ∧
    (∀ oid, objectIDFromHex input.ID = some oid →
      ((st.findOne s0 oid).1 = FindOneResult.noDocuments →
        (GetTaskByID st s0 input).result
          = Except.error (ApiError.notFound "Task not found")) ∧
      ((st.findOne s0 oid).1 = FindOneResult.storeError →
        (GetTaskByID st s0 input).result
          = Except.error (ApiError.internalServerError "Failed to fetch task")) ∧
      (∀ t, (st.findOne s0 oid).1 = FindOneResult.found t →
        (GetTaskByID st s0 input).result = Except.ok t)) := by
  constructor
  · intro hnone
    unfold GetTaskByID
    rw [hnone]
    exact ⟨rfl, rfl, rfl⟩
  · intro oid hsome
    refine ⟨?_, ?_, ?_⟩ <;>
      first
      | (intro h; unfold GetTaskByID; rw [hsome]; simp [h])
      | (intro t h; unfold GetTaskByID; rw [hsome]; simp [h])

/-- C6 witness: the malformed-identifier case and the not-found case at
concrete inputs. -/
theorem getTaskByID_classification_witness :
    (GetTaskByID scriptStore Script.empty ⟨"short"⟩).result
        = Except.error (ApiError.badRequest "Invalid task ID format") ∧
    (GetTaskByID scriptStore
        { Script.empty with findOneQ := [FindOneResult.noDocuments] }
        ⟨hexA⟩).result
        = Except.error (ApiError.notFound "Task not found") :=
  ⟨((getTaskByID_classification scriptStore Script.empty ⟨"short"⟩).1
      (by decide)).1,
   (((getTaskByID_classification scriptStore
        { Script.empty with findOneQ := [FindOneResult.noDocuments] }
        ⟨hexA⟩).2 oidA (by decide)).1 (by decide))⟩

/-- C7. A successful CreateTask returns a Task whose completed field is
false, whose id is the store-assigned `InsertedID` of the insert outcome,
and whose title and description are the caller-supplied values verbatim
(an empty title is passed through unchanged); the input type
(`CreateTaskBody`) has no id or completed field for the caller to supply,
and the inserted document always carries `completed := false` and the
zero id. A failed insert is a 500. -/
theorem createTask_result_fields {σ : Type} (st : Store σ) (s0 : σ)
    (input : CreateTaskInput) :
    (∀ oid,
      (st.insertOne s0
        ⟨ObjectId.zero, input.body.title, input.body.description, false⟩).1
          = InsertOneResult.ok oid →
      (CreateTask st s0 input).result
        = Except.ok ⟨oid, input.body.title, input.body.description, false⟩) ∧
    ((st.insertOne s0
        ⟨ObjectId.zero, input.body.title, input.body.description, false⟩).1
          = InsertOneResult.storeError →
      (CreateTask st s0 input).result
        = Except.error (ApiError.internalServerError
            "Failed to create task in database")) ∧
    (CreateTask st s0 input).trace
      = [Event.newTimeout 0 5,
         Event.call 0 (StoreCall.insertOneC
           ⟨ObjectId.zero, input.body.title, input.body.description, false⟩)] := by
  refine ⟨?_, ?_, ?_⟩
  · intro oid h
    unfold CreateTask
    simp [h]
  · intro h
    unfold CreateTask
    simp [h]
  · unfold CreateTask
    dsimp only
    split <;> rfl

/-- C7 witness: creating a task with an empty title on the live store —
the empty title is stored verbatim, completed is false, and the id is
the one minted by the insert. -/
theorem createTask_result_fields_witness :
    (CreateTask liveStore ([], 7) ⟨⟨"", "D"⟩⟩).result
      = Except.ok ⟨freshOid 7, "", "D", false⟩ :=
  (createTask_result_fields liveStore ([], 7) ⟨⟨"", "D"⟩⟩).1
    (freshOid 7) (by decide)

/-- C8. DeleteTask: a malformed externalID → 400 with no store access;
a store failure → 500; a deleted-count of zero → 404; on success the
confirmation body echoes exactly the externalID string the caller
supplied (`input.ID`, not the re-encoded identifier). -/
theorem deleteTask_classification {σ : Type} (st : Store σ) (s0 : σ)
    (input : DeleteTaskInput) :
    (objectIDFromHex input.ID = none →
      (DeleteTask st s0 input).result
        = Except.error (ApiError.badRequest "Invalid task ID format") ∧
      (DeleteTask st s0 input).trace = [] ∧
      (DeleteTask st s0 input).state = s0) ∧
    (∀ oid, objectIDFromHex input.ID = some oid →
      ((st.deleteOne s0 oid).1 = DeleteOneResult.storeError →
        (DeleteTask st s0 input).result
          = Except.error (ApiError.internalServerError "Failed to delete task")) ∧
      ((st.deleteOne s0 oid).1 = DeleteOneResult.ok 0 →
        (DeleteTask st s0 input).result
          = Except.error (ApiError.notFound "Task not found")) ∧
      (∀ n, (st.deleteOne s0 oid).1 = DeleteOneResult.ok n → n ≠ 0 →
        (DeleteTask st s0 input).result
          = Except.ok ⟨"Task deleted successfully", input.ID⟩)) := by
  constructor
  · intro hnone
    unfold DeleteTask
    rw [hnone]
    exact ⟨rfl, rfl, rfl⟩
  · intro oid hsome
    refine ⟨?_, ?_, ?_⟩
    · intro h
      unfold DeleteTask
      rw [hsome]
      simp [h]
    · intro h
      unfold DeleteTask
      rw [hsome]
      simp [h]
    · intro n h hn
      unfold DeleteTask
      rw [hsome]
      simp [h, hn]

/-- C8 witness: deleting with an upper-case 24-hex id echoes back the
exact caller string (not the lower-case canonical hex of the decoded
identifier). -/
theorem deleteTask_classification_witness :
    (DeleteTask scriptStore
        { Script.empty with deleteOneQ := [DeleteOneResult.ok 1] }
        ⟨"AAAAAAAAAAAAAAAAAAAAAAAA"⟩).result
      = Except.ok ⟨"Task deleted successfully", "AAAAAAAAAAAAAAAAAAAAAAAA"⟩ :=
  (((deleteTask_classification scriptStore
      { Script.empty with deleteOneQ := [DeleteOneResult.ok 1] }
      ⟨"AAAAAAAAAAAAAAAAAAAAAAAA"⟩).2 oidA (by decide)).2.2 1
    (by decide) (by decide))

/-- C9. A successful GetAllTasks always yields a defined sequence: a nil
decode result (no matching documents) is replaced by the empty list, a
populated decode result is returned as is, and the empty live collection
is a success with the empty sequence, not an error. -/
theorem getAllTasks_defined_sequence {σ : Type} (st : Store σ) (s0 : σ) :
    ((st.findAll s0).1 = FindAllResult.ok none →
      (GetAllTasks st s0 ()).result = Except.ok []) ∧
    (∀ ts, (st.findAll s0).1 = FindAllResult.ok (some ts) →
      (GetAllTasks st s0 ()).result = Except.ok ts) ∧
    (GetAllTasks liveStore ([], 0) ()).result = Except.ok [] := by
  refine ⟨?_, ?_, by decide⟩
  · intro h
    unfold GetAllTasks
    simp [h]
  · intro ts h
    unfold GetAllTasks
    simp [h]

/-- C9 witness: a scripted nil decode yields the empty list. -/
theorem getAllTasks_defined_sequence_witness :
    (GetAllTasks scriptStore
        { Script.empty with findAllQ := [FindAllResult.ok none] } ()).result
      = Except.ok [] :=
  (getAllTasks_defined_sequence scriptStore
    { Script.empty with findAllQ := [FindAllResult.ok none] }).1 (by decide)

/-- C10. UpdateTask performs no non-emptiness check on a present title:
with `title` present as the empty string, the pair ("title", "") is
placed verbatim in the `$set` document, applying that document leaves
the stored title empty (violating the data-model invariant that a title
is never empty, absent upstream validation), and the live run on an
existing task stores and returns the task with an empty title. -/
theorem updateTask_empty_title_applied (body : UpdateBody)
    (hbody : body.title = some "") :
    ("title", BsonValue.str "") ∈ buildUpdateSet body ∧
    (∀ t : Task, (applySet t (buildUpdateSet body)).title = "") ∧
    (UpdateTask liveStore ([taskAB], 0) ⟨hexA, ⟨some "", none, none⟩⟩).result
      = Except.ok ⟨oidA, "", "B", false⟩ ∧
    (UpdateTask liveStore ([taskAB], 0) ⟨hexA, ⟨some "", none, none⟩⟩).state
      = ([⟨oidA, "", "B", false⟩], 0) := by
  obtain ⟨ot, od, oc⟩ := body
  cases hbody
  refine ⟨?_, ?_, by decide, by decide⟩ <;>
    cases od <;> cases oc <;>
      simp [buildUpdateSet, applySet, setField]

/-- C10 witness: instantiation at the all-fields-view body with the empty
present title. -/
theorem updateTask_empty_title_applied_witness :
    ("title", BsonValue.str "") ∈ buildUpdateSet ⟨some "", none, none⟩ ∧
    (applySet taskAB (buildUpdateSet ⟨some "", none, none⟩)).title = "" :=
  ⟨(updateTask_empty_title_applied ⟨some "", none, none⟩ rfl).1,
   (updateTask_empty_title_applied ⟨some "", none, none⟩ rfl).2.1 taskAB⟩

end TodoApi
